import Mathlib

/-!
# Verification of the SQS job-queue consumer and ranking pipeline

Shallow embedding of the queue-consumer core of the repository:

* `src/models/sqs_message_history.py` — the Message-History data model
  (`MessageStatus`, `MessageType`, the `sqs_message_history` row).
* `src/repositories/sqs_message_history.py` — `create_or_update`,
  `update_status`, `cancel_by_job_id`, `cancel_by_sqs_message_id`.
* `worker/consumer.py` — `SQSConsumer._process_message`,
  `SQSConsumer._update_message_history`, `SQSConsumer._fail_keywords`.
* `worker/unified_processor.py` — `UnifiedJobProcessor.process_job`.
* `worker/processor.py` — the rank processor's result on cancellation.
* `src/services/keyword.py` — `_determine_rank`, `_get_metric_value`,
  `_service_price`, and the final-status aggregation of
  `_process_keyword_for_rank` / `_process_keyword_for_partial_rank`.

Python `datetime` values are modelled as abstract `Nat` ticks; the database
is modelled as an in-memory list of rows, and a row update is an in-place
replacement of the first row matched by the corresponding SQLAlchemy query
(`.first()`).  Currency amounts, scores and thresholds are modelled as `ℚ`
(the float values occurring in the program and in the claims are all exactly
representable).  A threshold value that Python would reject in
`float(thr_raw)` (non-numeric) or skip (`NaN`) is modelled as `none`.
-/

/-- `MessageStatus` from `src/models/sqs_message_history.py`. -/
inductive MessageStatus
  | queued
  | processing
  | completed
  | failed
  | dlq
  | cancelled
  | deleted
deriving DecidableEq, Repr

/-- `MessageType` from `src/models/sqs_message_history.py`. -/
inductive MessageType
  | fetch
  | partial_rank
  | full_rank
  | fetch_and_rank
deriving DecidableEq, Repr

/-- One row of the `sqs_message_history` table
(`src/models/sqs_message_history.py`).  JSON columns (`keyword_ids`,
`message_body`, `message_attributes`) are modelled by their payloads;
datetimes by `Nat` ticks.  The surrogate primary key `id` and the unused
`visibility_timeout` column are omitted (no claim mentions them). -/
structure SQSMessageHistory where
  sqs_message_id : String
  job_id : Option String
  message_type : Option MessageType
  keyword_ids : Option (List Nat)
  user_id : Option Nat
  user_full_name : Option String
  status : MessageStatus
  retry_count : Nat
  error_details : Option String
  error_code : Option String
  queued_at : Option Nat
  started_processing_at : Option Nat
  completed_at : Option Nat
  queue_name : Option String
  receipt_handle : Option String
  receive_count : Nat
  message_body : Option String
  message_attributes : Option String
  created_at : Nat
  updated_at : Nat
deriving DecidableEq, Repr

/-- The message-history table: a list of rows.  `unique=True` on
`sqs_message_id` is not assumed; queries return the first match exactly as
SQLAlchemy's `.first()` does. -/
abbrev HistoryStore := List SQSMessageHistory

/-- Replace (in place) the first element satisfying `p` by its image under
`f` — the effect of mutating the row returned by `.first()` and committing. -/
def updateFirst (p : α → Bool) (f : α → α) : List α → List α
  | [] => []
  | x :: xs => if p x then f x :: xs else x :: updateFirst p f xs

/-- Python truthiness of `new or old` for optional strings: `None` and the
empty string are falsy (`src/repositories/sqs_message_history.py`,
`create_or_update`).  Also used for the JSON dict columns, whose empty value
is falsy in Python as well. -/
def pyOrStr (new old : Option String) : Option String :=
  match new with
  | some s => if s = "" then old else some s
  | none => old

/-- Python truthiness of `new or old` for optional int lists: `None` and the
empty list are falsy. -/
def pyOrList (new old : Option (List Nat)) : Option (List Nat) :=
  match new with
  | some l => if l = [] then old else some l
  | none => old

/-- Python truthiness of `new or old` for optional ints: `None` and `0` are
falsy. -/
def pyOrNat (new old : Option Nat) : Option Nat :=
  match new with
  | some n => if n = 0 then old else some n
  | none => old

/-- `new if new else old` for values that are truthy whenever present
(enum members, datetimes). -/
def pyOrOpt (new old : Option α) : Option α :=
  match new with
  | some v => some v
  | none => old

/-- `sqs_receive_count if sqs_receive_count else existing.receive_count + 1`
(`create_or_update`): `None` and `0` fall back to incrementing. -/
def newReceiveCount (rc : Option Nat) (old : Nat) : Nat :=
  match rc with
  | some n => if n = 0 then old + 1 else n
  | none => old + 1

/-- The keyword-argument bundle of
`SQSMessageHistoryRepository.create_or_update`. -/
structure UpsertArgs where
  sqs_message_id : String
  job_id : Option String
  message_type : Option MessageType
  keyword_ids : Option (List Nat)
  user_id : Option Nat
  user_full_name : Option String
  status : MessageStatus
  retry_count : Nat
  queue_name : Option String
  receipt_handle : Option String
  message_body : Option String
  message_attributes : Option String
  queued_at : Option Nat
  sqs_receive_count : Option Nat
deriving DecidableEq, Repr

/-- The row produced by the regression-guard branch of `create_or_update`
(existing `PROCESSING`/`COMPLETED` row, incoming `QUEUED`): only
`receive_count` and `updated_at` move. -/
def guardUpdatedRow (a : UpsertArgs) (now : Nat) (r : SQSMessageHistory) :
    SQSMessageHistory :=
  { r with
    receive_count := newReceiveCount a.sqs_receive_count r.receive_count
    updated_at := now }

/-- The row produced by the general update branch of `create_or_update`. -/
def overwriteUpdatedRow (a : UpsertArgs) (now : Nat) (r : SQSMessageHistory) :
    SQSMessageHistory :=
  { r with
    job_id := pyOrStr a.job_id r.job_id
    message_type := pyOrOpt a.message_type r.message_type
    keyword_ids := pyOrList a.keyword_ids r.keyword_ids
    user_id := pyOrNat a.user_id r.user_id
    user_full_name := pyOrStr a.user_full_name r.user_full_name
    status := a.status
    retry_count := a.retry_count
    queue_name := pyOrStr a.queue_name r.queue_name
    receipt_handle := pyOrStr a.receipt_handle r.receipt_handle
    message_body := pyOrStr a.message_body r.message_body
    message_attributes := pyOrStr a.message_attributes r.message_attributes
    receive_count := newReceiveCount a.sqs_receive_count r.receive_count
    updated_at := now }

/-- The fresh row created by `create_or_update` when no row with this
message id exists.  `receive_count` takes the column default `0`;
`queued_at` falls back to the current time (`queued_at or
current_japan_time`, datetimes are truthy). -/
def freshRow (a : UpsertArgs) (now : Nat) : SQSMessageHistory :=
  { sqs_message_id := a.sqs_message_id
    job_id := a.job_id
    message_type := a.message_type
    keyword_ids := a.keyword_ids
    user_id := a.user_id
    user_full_name := a.user_full_name
    status := a.status
    retry_count := a.retry_count
    error_details := none
    error_code := none
    queued_at := some (a.queued_at.getD now)
    started_processing_at := none
    completed_at := none
    queue_name := a.queue_name
    receipt_handle := a.receipt_handle
    receive_count := 0
    message_body := a.message_body
    message_attributes := a.message_attributes
    created_at := now
    updated_at := now }

/-- `SQSMessageHistoryRepository.create_or_update`
(`src/repositories/sqs_message_history.py`, lines 30–164).  The two
sequential regression-guard `if` blocks of the source (existing
`PROCESSING` + incoming `QUEUED`, and existing `COMPLETED` + incoming
`QUEUED`) perform the identical update, so they appear here as two `if`
branches sharing `guardUpdatedRow`.  The `IntegrityError` retry is a
concurrency race that cannot arise in this sequential model, so the
creation branch simply appends. -/
def create_or_update (a : UpsertArgs) (now : Nat) (store : HistoryStore) :
    SQSMessageHistory × HistoryStore :=
  match store.find? (fun r => r.sqs_message_id == a.sqs_message_id) with
  | some existing =>
    if existing.status = .processing ∧ a.status = .queued then
      let r' := guardUpdatedRow a now existing
      (r', updateFirst (fun r => r.sqs_message_id == a.sqs_message_id) (fun _ => r') store)
    else if existing.status = .completed ∧ a.status = .queued then
      let r' := guardUpdatedRow a now existing
      (r', updateFirst (fun r => r.sqs_message_id == a.sqs_message_id) (fun _ => r') store)
    else
      let r' := overwriteUpdatedRow a now existing
      (r', updateFirst (fun r => r.sqs_message_id == a.sqs_message_id) (fun _ => r') store)
  | none =>
    let r := freshRow a now
    (r, store ++ [r])

/-- `SQSMessageHistoryRepository.update_status`
(`src/repositories/sqs_message_history.py`, lines 166–198).  Returns the
updated row (or `None` when no row matches — nothing is created) together
with the store after the commit. -/
def update_status (mid : String) (st : MessageStatus)
    (error_details error_code : Option String) (now : Nat)
    (store : HistoryStore) : Option SQSMessageHistory × HistoryStore :=
  match store.find? (fun r => r.sqs_message_id == mid) with
  | none => (none, store)
  | some r =>
    let r1 := { r with status := st, updated_at := now }
    let r2 :=
      if st = .processing then { r1 with started_processing_at := some now }
      else if st = .completed ∨ st = .failed ∨ st = .dlq then
        { r1 with completed_at := some now }
      else r1
    let r3 :=
      if st = .failed ∨ st = .dlq then
        { r2 with error_details := error_details, error_code := error_code }
      else r2
    (some r3, updateFirst (fun r => r.sqs_message_id == mid) (fun _ => r3) store)

/-- The row written by a successful cancellation: status `CANCELLED`,
timestamp refreshed. -/
def cancelledRow (now : Nat) (r : SQSMessageHistory) : SQSMessageHistory :=
  { r with status := .cancelled, updated_at := now }

/-- `SQSMessageHistoryRepository.cancel_by_job_id`
(`src/repositories/sqs_message_history.py`, lines 299–327): only rows in
`QUEUED` or `PROCESSING` may be cancelled; otherwise `None` is returned and
nothing is written. -/
def cancel_by_job_id (jid : String) (now : Nat) (store : HistoryStore) :
    Option SQSMessageHistory × HistoryStore :=
  match store.find? (fun r => r.job_id == some jid) with
  | none => (none, store)
  | some r =>
    if r.status = .queued ∨ r.status = .processing then
      (some (cancelledRow now r),
        updateFirst (fun x => x.job_id == some jid) (fun _ => cancelledRow now r) store)
    else (none, store)

/-- `SQSMessageHistoryRepository.cancel_by_sqs_message_id`
(`src/repositories/sqs_message_history.py`, lines 329–357). -/
def cancel_by_sqs_message_id (mid : String) (now : Nat) (store : HistoryStore) :
    Option SQSMessageHistory × HistoryStore :=
  match store.find? (fun r => r.sqs_message_id == mid) with
  | none => (none, store)
  | some r =>
    if r.status = .queued ∨ r.status = .processing then
      (some (cancelledRow now r),
        updateFirst (fun x => x.sqs_message_id == mid) (fun _ => cancelledRow now r) store)
    else (none, store)

/-! ## Scoring engine (`src/services/keyword.py`) -/

/-- `RankConst.D_RANK` from `src/utils/constants.py`, the default rank label. -/
def D_RANK : String := "D"

/-- One entry of `score_setting.score_thresholds`
(`ScoreThresholdOut`): a label and its raw threshold value.  A value that
`float()` rejects, or that converts to `NaN`, is modelled as `none`; a
`None`/empty label is modelled as the empty string (both are falsy and both
are skipped identically). -/
structure ScoreThreshold where
  label : String
  value : Option ℚ
deriving DecidableEq, Repr

/-- `KeywordService._get_metric_value` (`src/services/keyword.py`,
lines 1608–1613): the value of the first entry whose label matches, with
default `0` when no entry matches. -/
def get_metric_value (metrics : List ScoreThreshold) (label : String) :
    Option ℚ :=
  match metrics.find? (fun m => m.label == label) with
  | some m => m.value
  | none => some 0

/-- The `(label, threshold)` pairs collected by `_determine_rank`
(`src/services/keyword.py`, lines 1568–1591): entries in list order, falsy
labels skipped, threshold obtained through `_get_metric_value` (hence always
the value of the *first* entry carrying that label), invalid/`NaN` values
skipped without marking the label as seen, duplicate labels skipped once a
valid threshold has been recorded. -/
def validLabels (metrics : List ScoreThreshold) : List (String × ℚ) :=
  go metrics []
where
  go : List ScoreThreshold → List String → List (String × ℚ)
  | [], _ => []
  | m :: rest, seen =>
    if m.label = "" then go rest seen
    else
      match get_metric_value metrics m.label with
      | none => go rest seen
      | some thr =>
        if seen.contains m.label then go rest seen
        else (m.label, thr) :: go rest (m.label :: seen)

/-- Lexicographic comparison of character lists by Unicode code point —
Python's string comparison, used by `str(kv[0])` in the sort key of
`_determine_rank`. -/
def charListLE : List Char → List Char → Bool
  | [], _ => true
  | _ :: _, [] => false
  | a :: as, b :: bs =>
    if a.toNat < b.toNat then true
    else if b.toNat < a.toNat then false
    else charListLE as bs

/-- Python string `≤` (lexicographic by code point). -/
def strLE (a b : String) : Bool := charListLE a.data b.data

lemma charListLE_total : ∀ a b, charListLE a b = true ∨ charListLE b a = true
  | [], _ => Or.inl rfl
  | _ :: _, [] => Or.inr rfl
  | a :: as, b :: bs => by
    simp only [charListLE]
    rcases Nat.lt_trichotomy a.toNat b.toNat with h | h | h
    · left; rw [if_pos h]
    · rcases charListLE_total as bs with ih | ih
      · left; rw [if_neg (by omega), if_neg (by omega)]; exact ih
      · right; rw [if_neg (by omega), if_neg (by omega)]; exact ih
    · right; rw [if_pos h]

lemma charListLE_trans :
    ∀ a b c, charListLE a b = true → charListLE b c = true →
      charListLE a c = true
  | [], _, _, _, _ => rfl
  | _ :: _, [], _, hab, _ => by simp [charListLE] at hab
  | _ :: _, _ :: _, [], _, hbc => by simp [charListLE] at hbc
  | x :: xs, y :: ys, z :: zs, hab, hbc => by
    simp only [charListLE] at hab hbc ⊢
    split at hab
    next h1 =>
      split at hbc
      next h2 => rw [if_pos (by omega)]
      next h2 =>
        split at hbc
        next => exact absurd hbc (by simp)
        next h3 => rw [if_pos (by omega)]
    next h1 =>
      split at hab
      next => exact absurd hab (by simp)
      next h2 =>
        split at hbc
        next h3 => rw [if_pos (by omega)]
        next h3 =>
          split at hbc
          next => exact absurd hbc (by simp)
          next h4 =>
            rw [if_neg (by omega), if_neg (by omega)]
            exact charListLE_trans xs ys zs hab hbc

/-- The sort order of `_determine_rank`:
`labels.sort(key=lambda kv: (-kv[1], str(kv[0])))` — descending threshold,
ascending label (Python string order) on ties. -/
def rankLE (a b : String × ℚ) : Prop :=
  b.2 < a.2 ∨ (a.2 = b.2 ∧ strLE a.1 b.1 = true)

instance : DecidableRel rankLE := fun a b =>
  inferInstanceAs (Decidable (b.2 < a.2 ∨ (a.2 = b.2 ∧ strLE a.1 b.1 = true)))

instance : IsTotal (String × ℚ) rankLE where
  total a b := by
    rcases lt_trichotomy a.2 b.2 with h | h | h
    · exact Or.inr (Or.inl h)
    · rcases charListLE_total a.1.data b.1.data with h1 | h1
      · exact Or.inl (Or.inr ⟨h, h1⟩)
      · exact Or.inr (Or.inr ⟨h.symm, h1⟩)
    · exact Or.inl (Or.inl h)

instance : IsTrans (String × ℚ) rankLE where
  trans a b c hab hbc := by
    rcases hab with h1 | ⟨h1, h1'⟩
    · rcases hbc with h2 | ⟨h2, h2'⟩
      · exact Or.inl (h2.trans h1)
      · exact Or.inl (h2 ▸ h1)
    · rcases hbc with h2 | ⟨h2, h2'⟩
      · exact Or.inl (h1 ▸ h2)
      · exact Or.inr ⟨h1.trans h2, charListLE_trans _ _ _ h1' h2'⟩

/-- `KeywordService._determine_rank` (`src/services/keyword.py`,
lines 1551–1606).  Python's stable sort is modelled by `List.insertionSort`:
after deduplication no two collected pairs share a label, so the sort key
`(-threshold, label)` is injective on the list and every sorting algorithm
produces the same result.  The scan `for label, thr in labels: if weight >=
thr: return label` followed by `return default_rank` is `find?` with the
default. -/
def determine_rank (weight : ℚ) (metrics : List ScoreThreshold) : String :=
  if metrics = [] then D_RANK
  else
    let labels := validLabels metrics
    if labels = [] then D_RANK
    else
      match (labels.insertionSort rankLE).find? (fun lt => lt.2 ≤ weight) with
      | some lt => lt.1
      | none => D_RANK

/-- `KeywordService._service_price` (`src/services/keyword.py`,
lines 1615–1629): the discrete five-level price score.  The `match` guards
are the source's interval conditions verbatim (values strictly between
99 999 and 100 000 fall through to the default, exactly as in Python). -/
def service_price (yen : ℚ) : ℚ :=
  if 100000 ≤ yen then 10
  else if 60000 ≤ yen ∧ yen ≤ 99999 then 7.5
  else if 30000 ≤ yen ∧ yen ≤ 59999 then 5
  else if 10000 ≤ yen ∧ yen ≤ 29999 then 2.5
  else 0

/-- `StatusConst` from `src/utils/constants.py` (keyword / SERP statuses). -/
inductive KStatus
  | pending
  | processing
  | failed
  | success
  | partialStatus
  | cancelled
  | waiting
deriving DecidableEq, Repr

/-- The final-status aggregation at the end of
`KeywordService._process_keyword_for_rank` (`src/services/keyword.py`,
lines 1052–1069) and `_process_keyword_for_partial_rank` (lines 1128–1145):
`threshold = math.ceil(total_count / 3) if total_count > 0 else 3`, and the
keyword phase is `FAILED` when `failed_count >= threshold`, else `SUCCESS`.
`math.ceil(total_count / 3)` is `(total_count + 2) / 3` in `Nat`
arithmetic. -/
def finalKeywordStatus (failed_count total_count : Nat) : KStatus :=
  let threshold := if 0 < total_count then (total_count + 2) / 3 else 3
  if threshold ≤ failed_count then .failed else .success

/-! ## Worker: consumer, router, keyword failure handling -/

/-- A keyword row restricted to its three phase-status columns
(`src/models/keyword.py`); the only keyword state the consumer and the
cancellation flow touch. -/
structure Keyword where
  id : Nat
  fetch_status : KStatus
  partial_rank_status : KStatus
  rank_status : KStatus
deriving DecidableEq, Repr

/-- The three per-phase status columns of a keyword. -/
inductive KwPhase
  | fetchPhase
  | partialPhase
  | rankPhase
deriving DecidableEq, Repr

def getPhase : KwPhase → Keyword → KStatus
  | .fetchPhase, k => k.fetch_status
  | .partialPhase, k => k.partial_rank_status
  | .rankPhase, k => k.rank_status

def setPhase : KwPhase → KStatus → Keyword → Keyword
  | .fetchPhase, s, k => { k with fetch_status := s }
  | .partialPhase, s, k => { k with partial_rank_status := s }
  | .rankPhase, s, k => { k with rank_status := s }

/-- The `status_field` selection of `SQSConsumer._fail_keywords`
(`worker/consumer.py`, lines 443–449): any message type other than the three
listed ones yields no field, and no keyword is touched. -/
def statusFieldFor (message_type : String) : Option KwPhase :=
  if message_type = "fetch" then some .fetchPhase
  else if message_type = "partial_rank" then some .partialPhase
  else if message_type = "full_rank" then some .rankPhase
  else none

/-- `KeywordService.set_keywords_status` (`src/services/keyword.py`,
lines 116–141) specialised as used by `_fail_keywords`: bulk-set one phase
column for every keyword whose id is listed. -/
def set_keywords_status (ids : List Nat) (ph : KwPhase) (v : KStatus)
    (kws : List Keyword) : List Keyword :=
  kws.map (fun k => if ids.contains k.id then setPhase ph v k else k)

/-- `SQSConsumer._fail_keywords` (`worker/consumer.py`, lines 436–467).
The companion `fail_processing_serp_results` call only touches SERP
sub-result rows, which no claim in scope constrains, so the SERP table is
not part of this model. -/
def failKeywords (ids : List Nat) (message_type : String)
    (kws : List Keyword) : List Keyword :=
  if ids = [] then kws
  else
    match statusFieldFor message_type with
    | none => kws
    | some ph => set_keywords_status ids ph .failed kws

/-- The parsed message body (`worker/consumer.py`, lines 151–159;
schema `UnifiedJobMessage` in `src/schemas/sqs_message.py`).  `user_id` is
`none` for the `'unknown'` fallback. -/
structure MessageBody where
  job_id : String
  message_type : String
  keyword_ids : List Nat
  user_id : Option Nat
  retry_count : Nat
deriving DecidableEq, Repr

/-- One received SQS message: queue-assigned id, receipt handle, decoded
body, and the queue-reported `ApproximateReceiveCount`. -/
structure SQSMessage where
  messageId : String
  receiptHandle : String
  body : MessageBody
  approximateReceiveCount : Nat
deriving DecidableEq, Repr

/-- The `{'success': …, 'should_delete': …, 'reason': …}` triple returned by
the processors (`worker/processor.py`, `worker/unified_processor.py`). -/
structure RouterResult where
  success : Bool
  should_delete : Bool
  reason : String
deriving DecidableEq, Repr

/-- `MessageType(message_type)` with `ValueError` mapped to `none`
(`worker/consumer.py`, lines 376–380). -/
def parseMessageType (s : String) : Option MessageType :=
  if s = "fetch" then some .fetch
  else if s = "partial_rank" then some .partial_rank
  else if s = "full_rank" then some .full_rank
  else if s = "fetch_and_rank" then some .fetch_and_rank
  else none

/-- `SQSConsumer._update_message_history` (`worker/consumer.py`,
lines 353–415).  With a receive count the write goes through
`create_or_update` (the error arguments are dropped, exactly as in the
source); without one it goes through `update_status`.  `users` models the
`User` table used for the `user_full_name` lookup. -/
def update_message_history (mid : String) (st : MessageStatus)
    (error_details error_code : Option String) (rc : Option Nat)
    (job_id : Option String) (message_type : Option String)
    (kids : Option (List Nat)) (uid : Option Nat)
    (users : List (Nat × String)) (now : Nat)
    (store : HistoryStore) : HistoryStore :=
  match rc with
  | some n =>
    let ufn :=
      match uid with
      | some u => (users.find? (fun p => p.1 == u)).map (fun p => p.2)
      | none => none
    (create_or_update
      { sqs_message_id := mid
        job_id := job_id
        message_type := message_type.bind parseMessageType
        keyword_ids := kids
        user_id := uid
        user_full_name := ufn
        status := st
        retry_count := 0
        queue_name := none
        receipt_handle := none
        message_body := none
        message_attributes := none
        queued_at := none
        sqs_receive_count := some n } now store).2
  | none => (update_status mid st error_details error_code now store).2

/-- `MAX_RETRIES` (`worker/consumer.py`, line 165). -/
def MAX_RETRIES : Nat := 3

/-- What one call to `_process_message` leaves behind: the history table,
the keyword table, whether the message was deleted from the queue, whether
the job router/pipeline was invoked, and whether a visibility extender was
started. -/
structure ConsumerOutcome where
  history : HistoryStore
  keywords : List Keyword
  deletedFromQueue : Bool
  pipelineInvoked : Bool
  extenderStarted : Bool
deriving DecidableEq, Repr

/-- The type of the job router as seen from the consumer
(`UnifiedJobProcessor.process_job`): it reads the parsed body, may mutate
keyword rows, and — because the pipeline and any concurrent cancel endpoint
share the same database — may also change the history table; it yields the
result triple.  `_process_message` is parametric in it. -/
abbrev Router :=
  MessageBody → List Keyword → HistoryStore →
    RouterResult × List Keyword × HistoryStore

/-- `SQSConsumer._process_message` (`worker/consumer.py`, lines 145–351) on
an already-decoded message.

Step by step, as in the source: (1) if the approximate receive count exceeds
`MAX_RETRIES`, mark the history `FAILED` with `MAX_RETRIES_EXCEEDED`, fail
the referenced keywords, delete the message, and return without touching the
router; (2) if the record found by job id is already `CANCELLED`, delete the
message and mark the history `DELETED`; (3) upsert `PROCESSING` with the
receive count; (4) start a visibility extender for large or `full_rank`
jobs; (5) run the router; (6) on success mark `COMPLETED` and delete; on
failure with `should_delete` mark `FAILED`/`JOB_REJECTED`, fail the
keywords and delete; otherwise mark `FAILED`/`PROCESS_FAILED`, fail the
keywords and leave the message in the queue.  The JSON-decode-error and
unexpected-exception handlers are unreachable here because the body is
already decoded and the router is a total function. -/
def processMessage (msg : SQSMessage) (router : Router)
    (users : List (Nat × String)) (now : Nat)
    (store : HistoryStore) (kws : List Keyword) : ConsumerOutcome :=
  let body := msg.body
  let rc := msg.approximateReceiveCount
  if MAX_RETRIES < rc then
    let store1 := update_message_history msg.messageId .failed
      (some ("Max retries exceeded (" ++ toString rc ++ "/" ++
        toString MAX_RETRIES ++ ")"))
      (some "MAX_RETRIES_EXCEEDED") none none none none none users now store
    { history := store1
      keywords := failKeywords body.keyword_ids body.message_type kws
      deletedFromQueue := true
      pipelineInvoked := false
      extenderStarted := false }
  else
    let preCancelled : Bool :=
      (store.find? (fun r => r.job_id == some body.job_id)).any
        (fun r => r.status == MessageStatus.cancelled)
    if preCancelled then
      { history := (update_status msg.messageId .deleted none none now store).2
        keywords := kws
        deletedFromQueue := true
        pipelineInvoked := false
        extenderStarted := false }
    else
      let store2 := update_message_history msg.messageId .processing none none
        (some rc) (some body.job_id) (some body.message_type)
        (some body.keyword_ids) body.user_id users now store
      let ext := decide (25 ≤ body.keyword_ids.length) ||
        (body.message_type == "full_rank")
      match router body kws store2 with
      | (result, kws2, store3) =>
        if result.success then
          { history := (update_status msg.messageId .completed none none now store3).2
            keywords := kws2
            deletedFromQueue := true
            pipelineInvoked := true
            extenderStarted := ext }
        else if result.should_delete then
          { history := (update_status msg.messageId .failed
              (some result.reason) (some "JOB_REJECTED") now store3).2
            keywords := failKeywords body.keyword_ids body.message_type kws2
            deletedFromQueue := true
            pipelineInvoked := true
            extenderStarted := ext }
        else
          { history := (update_status msg.messageId .failed
              (some result.reason) (some "PROCESS_FAILED") now store3).2
            keywords := failKeywords body.keyword_ids body.message_type kws2
            deletedFromQueue := false
            pipelineInvoked := true
            extenderStarted := ext }

/-- `UnifiedJobProcessor.process_job` (`worker/unified_processor.py`,
lines 30–98), parametric in the outcomes of the two sub-processors: the
fetch processor returns a truthy/falsy result (lines 57–63), the rank
processor returns a result triple which is passed through (lines 65–83);
any other message type yields `success=False, should_delete=False`
(lines 85–89). -/
def unified_process_job (fetchOk : Bool) (rankResult : RouterResult)
    (body : MessageBody) : RouterResult :=
  if body.message_type = "fetch" then
    if fetchOk then ⟨true, true, "Fetch completed"⟩
    else ⟨false, false, "Fetch failed"⟩
  else if body.message_type = "partial_rank" then rankResult
  else if body.message_type = "full_rank" then rankResult
  else ⟨false, false, "Unknown message type: " ++ body.message_type⟩

/-- The result triple `RankProcessor.process_job` returns when the pipeline
raises `JobCancelledException` (`worker/processor.py`, lines 153–165):
`should_delete=True` with the cancellation reason. -/
def rankCancelledResult : RouterResult :=
  ⟨false, true, "Job cancelled by user"⟩

/-- The keyword resets performed by `KeywordService.run_rank` when a
cancellation is detected while a keyword is mid-processing
(`src/services/keyword.py`, lines 482–496): the current keyword and every
remaining keyword of the batch get `rank_status = PENDING`. -/
def runRankCancelReset (currentAndRemaining : List Nat)
    (kws : List Keyword) : List Keyword :=
  kws.map (fun k =>
    if currentAndRemaining.contains k.id then
      { k with rank_status := .pending }
    else k)

/-! ## Helper lemmas -/

/-- `math.ceil(t / 3)` for a natural `t` equals `(t + 2) / 3` in natural
division. -/
lemma natCeil_div_three (t : ℕ) : ⌈(t : ℚ) / 3⌉₊ = (t + 2) / 3 := by
  have h1 : t ≤ 3 * ((t + 2) / 3) := by omega
  apply le_antisymm
  · apply Nat.ceil_le.mpr
    rw [div_le_iff₀ (by norm_num : (0:ℚ) < 3)]
    have h2 : (t : ℚ) ≤ ((3 * ((t + 2) / 3) : ℕ) : ℚ) := by exact_mod_cast h1
    push_cast at h2
    linarith
  · rcases Nat.eq_zero_or_pos ((t + 2) / 3) with h | h
    · rw [h]; exact Nat.zero_le _
    · obtain ⟨j, hj⟩ : ∃ j, (t + 2) / 3 = j + 1 := ⟨(t + 2) / 3 - 1, by omega⟩
      have h2 : 3 * j < t := by omega
      have h3 : (j : ℚ) < (t : ℚ) / 3 := by
        rw [lt_div_iff₀ (by norm_num : (0:ℚ) < 3)]
        have h4 : ((3 * j : ℕ) : ℚ) < (t : ℚ) := by exact_mod_cast h2
        push_cast at h4
        linarith
      have h5 := Nat.lt_ceil.mpr h3
      omega

/-! ## C8 — aggregate item status -/

/-- C8 (counterexample): the claimed rule "`FAILED` exactly when
`failedCount ≥ ceil(totalCount / 3)`, covering every `totalCount` including
zero" is false at `failedCount = 0, totalCount = 0`: there
`ceil(0 / 3) = 0 ≤ 0`, yet the code takes the `else 3` threshold and yields
`SUCCESS`. -/
theorem keyword_final_status_zero_counterexample :
    finalKeywordStatus 0 0 = KStatus.success ∧
    ⌈((0 : ℕ) : ℚ) / 3⌉₊ ≤ 0 ∧
    KStatus.success ≠ KStatus.failed := by
  refine ⟨rfl, ?_, by decide⟩
  simp

/-- C8 (amended): after all sub-results of an item are attempted, the item's
final phase status is `FAILED` exactly when `failedCount ≥
ceil(totalCount / 3)` for a positive `totalCount`, and exactly when
`failedCount ≥ 3` for an item with zero sub-results (the code's fallback
threshold); in particular an item with 9 sub-results is `FAILED` at 3
failures and `SUCCESS` at 2 failures. -/
theorem keyword_final_status_characterisation :
    (∀ failed_count total_count : ℕ,
      finalKeywordStatus failed_count total_count = KStatus.failed ↔
        (if 0 < total_count then ⌈(total_count : ℚ) / 3⌉₊ ≤ failed_count
         else 3 ≤ failed_count)) ∧
    finalKeywordStatus 3 9 = KStatus.failed ∧
    finalKeywordStatus 2 9 = KStatus.success := by
  refine ⟨fun f t => ?_, by decide, by decide⟩
  by_cases ht : 0 < t
  · simp only [finalKeywordStatus, if_pos ht, natCeil_div_three]
    split <;> simp_all
  · simp only [finalKeywordStatus, if_neg ht]
    split <;> simp_all

/-! ## C9 — price tier -/

/-- C9 (counterexample): the claim maps `99 999` to `5.0`, but
`_service_price` puts `99 999` in the `60 000 ≤ p ≤ 99 999` tier and
returns `7.5`. -/
theorem service_price_99999_counterexample :
    service_price 99999 = 15 / 2 ∧ service_price 99999 ≠ 5 := by
  constructor <;> norm_num [service_price]

/-- C9 (amended): the price-tier step function maps `99 999 ↦ 7.5`,
`100 000 ↦ 10.0`, `59 999 ↦ 5.0` and `9 999 ↦ 0.0`, boundary-inclusive at
`100 000`. -/
theorem service_price_step_values :
    service_price 99999 = 7.5 ∧ service_price 100000 = 10 ∧
    service_price 59999 = 5 ∧ service_price 9999 = 0 := by
  refine ⟨?_, ?_, ?_, ?_⟩ <;> norm_num [service_price]

/-! ## C10 — `update_status` on a missing row -/

/-- C10: for a message identifier with no existing row, `update_status`
returns `None` and leaves the store untouched (no row is created), and
consequently the consumer's `_update_message_history` without a receive
count (the `FAILED`/`COMPLETED`/`DELETED` writes) is a silent no-op for
such a message. -/
theorem update_status_missing_row_noop :
    ∀ (mid : String) (st : MessageStatus) (det code : Option String)
      (now : Nat) (store : HistoryStore) (users : List (Nat × String)),
      store.find? (fun r => r.sqs_message_id == mid) = none →
      update_status mid st det code now store = (none, store) ∧
      update_message_history mid st det code none none none none none
        users now store = store := by
  intro mid st det code now store users h
  refine ⟨?_, ?_⟩
  · simp [update_status, h]
  · simp [update_message_history, update_status, h]

/-- Witness for C10 at a concrete input. -/
theorem update_status_missing_row_noop_witness :
    update_status "m9" .failed (some "boom") (some "X") 3 [] = (none, []) ∧
    update_message_history "m9" .failed (some "boom") (some "X") none none
      none none none [] 3 [] = [] :=
  update_status_missing_row_noop "m9" .failed (some "boom") (some "X") 3 [] [] rfl

/-! ## C5 — unknown job type -/

/-- A decoded body whose job type is none of the known ones. -/
def unknownTypeBody : MessageBody :=
  { job_id := "j9", message_type := "bogus_type", keyword_ids := [1],
    user_id := some 1, retry_count := 0 }

/-- C5 (counterexample): for an unknown job type the Job Router's result has
`should_delete = False` (the message is left in the queue), not
`shouldDelete = true` as claimed. -/
theorem unknown_job_type_counterexample :
    (unified_process_job true ⟨true, true, "ok"⟩ unknownTypeBody).should_delete
        = false ∧
    (unified_process_job true ⟨true, true, "ok"⟩ unknownTypeBody).success
        = false := by
  constructor <;> decide

/-- C5 (amended): for every decoded message whose job type is not one of the
known types (`fetch`, `partial_rank`, `full_rank`), the Job Router returns
`success = False, should_delete = False` with an unknown-type reason, so the
consumer leaves the message in the queue for provider redelivery instead of
deleting it. -/
theorem unknown_job_type_result :
    ∀ (fetchOk : Bool) (rankResult : RouterResult) (body : MessageBody),
      body.message_type ≠ "fetch" →
      body.message_type ≠ "partial_rank" →
      body.message_type ≠ "full_rank" →
      unified_process_job fetchOk rankResult body =
        ⟨false, false, "Unknown message type: " ++ body.message_type⟩ := by
  intro fOk rr b h1 h2 h3
  simp [unified_process_job, h1, h2, h3]

/-- Witness for C5 at a concrete input. -/
theorem unknown_job_type_result_witness :
    unified_process_job false ⟨true, true, "r"⟩ unknownTypeBody =
      ⟨false, false, "Unknown message type: bogus_type"⟩ :=
  unknown_job_type_result false ⟨true, true, "r"⟩ unknownTypeBody
    (by decide) (by decide) (by decide)

/-! ## C6, C7 — rank assignment -/

lemma charListLE_refl : ∀ l, charListLE l l = true
  | [] => rfl
  | a :: as => by
    simp only [charListLE]
    rw [if_neg (by omega), if_neg (by omega)]
    exact charListLE_refl as

lemma rankLE_refl (a : String × ℚ) : rankLE a a :=
  Or.inr ⟨rfl, charListLE_refl a.1.data⟩

/-- In a list sorted by a reflexive relation `r`, the element returned by
`find?` is `r`-below every element satisfying the predicate. -/
lemma find?_sorted_first {α : Type} {q : α → Bool} {r : α → α → Prop}
    (hrefl : ∀ a, r a a) :
    ∀ S : List α, S.Sorted r → ∀ x, S.find? q = some x →
      ∀ y ∈ S, q y = true → r x y := by
  intro S
  induction S with
  | nil => intro _ x hx; simp at hx
  | cons a rest ih =>
    intro hs x hx y hy hq
    by_cases hqa : q a = true
    · rw [List.find?_cons_of_pos _ hqa] at hx
      injection hx with hax
      subst hax
      rcases List.mem_cons.mp hy with rfl | hy2
      · exact hrefl _
      · exact (List.sorted_cons.mp hs).1 y hy2
    · rw [List.find?_cons_of_neg _ hqa] at hx
      rcases List.mem_cons.mp hy with rfl | hy2
      · exact absurd hq hqa
      · exact ih (List.sorted_cons.mp hs).2 x hx y hy2 hq

/-- C7: whenever some valid `(label, threshold)` pair qualifies
(`threshold ≤ weight`), `_determine_rank` returns a qualifying valid label
whose threshold is maximal among the qualifying pairs, with ties broken by
being (Python-)lexicographically least — i.e. the first label of the
descending-threshold / ascending-label sort whose threshold is at most the
weight; in particular with thresholds `{A: 60, B: 60, C: 30}` and weight
`60` the result is `A`. -/
theorem rank_first_qualifying :
    (∀ (w : ℚ) (metrics : List ScoreThreshold) (l : String) (t : ℚ),
      (l, t) ∈ validLabels metrics → t ≤ w →
      ∃ t0 : ℚ,
        (determine_rank w metrics, t0) ∈ validLabels metrics ∧ t0 ≤ w ∧
        ∀ l2 t2, (l2, t2) ∈ validLabels metrics → t2 ≤ w →
          t2 < t0 ∨ (t2 = t0 ∧
            strLE (determine_rank w metrics) l2 = true)) ∧
    determine_rank 60 [⟨"A", some 60⟩, ⟨"B", some 60⟩, ⟨"C", some 30⟩]
      = "A" := by
  constructor
  · intro w metrics l t hmem hle
    have hm : ¬ metrics = [] := by
      intro h
      subst h
      simp [validLabels, validLabels.go] at hmem
    have hl : ¬ validLabels metrics = [] := by
      intro h
      rw [h] at hmem
      simp at hmem
    have hsome : (((validLabels metrics).insertionSort rankLE).find?
        (fun lt => lt.2 ≤ w)).isSome := by
      rw [List.find?_isSome]
      exact ⟨(l, t), (List.mem_insertionSort rankLE).mpr hmem, by simpa using hle⟩
    obtain ⟨x, hx⟩ := Option.isSome_iff_exists.mp hsome
    have hdr : determine_rank w metrics = x.1 := by
      unfold determine_rank
      rw [if_neg hm, if_neg hl, hx]
    refine ⟨x.2, ?_, ?_, ?_⟩
    · rw [hdr]
      have hxm := List.mem_of_find?_eq_some hx
      rw [List.mem_insertionSort] at hxm
      exact hxm
    · have := List.find?_some hx
      simpa using this
    · intro l2 t2 hmem2 hle2
      have hr : rankLE x (l2, t2) := by
        refine find?_sorted_first rankLE_refl _
          (List.sorted_insertionSort rankLE _) x hx (l2, t2)
          ((List.mem_insertionSort rankLE).mpr hmem2) ?_
        simpa using hle2
      rcases hr with h | ⟨h, h2⟩
      · exact Or.inl h
      · exact Or.inr ⟨h.symm, hdr ▸ h2⟩
  · decide

/-- Witness for C7: the characterisation applied to the spec's concrete
configuration (thresholds `{A: 60, B: 60, C: 30}`, weight `60`, qualifying
pair `("C", 30)`). -/
theorem rank_first_qualifying_witness :
    ∃ t0 : ℚ,
      (determine_rank 60 [⟨"A", some 60⟩, ⟨"B", some 60⟩, ⟨"C", some 30⟩], t0)
          ∈ validLabels [⟨"A", some 60⟩, ⟨"B", some 60⟩, ⟨"C", some 30⟩] ∧
      t0 ≤ 60 ∧
      ∀ l2 t2,
        (l2, t2) ∈ validLabels [⟨"A", some 60⟩, ⟨"B", some 60⟩, ⟨"C", some 30⟩] →
        t2 ≤ 60 →
        t2 < t0 ∨ (t2 = t0 ∧
          strLE (determine_rank 60
            [⟨"A", some 60⟩, ⟨"B", some 60⟩, ⟨"C", some 30⟩]) l2 = true) :=
  rank_first_qualifying.1 60 _ "C" 30 (by decide) (by decide)

/-- C6 (counterexample): with the single valid threshold `{A: 50}` and
weight `10` no threshold qualifies, and `_determine_rank` returns the fixed
default `"D"`, not the lowest-threshold label `"A"` the claim requires; and
on the spec's own example `{A: 50, B: 0, C: -25}` with weight `10` the
entry `B` (threshold `0 ≤ 10`) qualifies, so the result is `"B"`, not the
claimed `"C"`. -/
theorem rank_fallback_counterexample :
    determine_rank 10 [⟨"A", some 50⟩] = "D" ∧
    determine_rank 10 [⟨"A", some 50⟩] ≠ "A" ∧
    determine_rank 10 [⟨"A", some 50⟩, ⟨"B", some 0⟩, ⟨"C", some (-25)⟩]
      = "B" ∧
    determine_rank 10 [⟨"A", some 50⟩, ⟨"B", some 0⟩, ⟨"C", some (-25)⟩]
      ≠ "C" := by
  exact ⟨by decide, by decide, by decide, by decide⟩

/-- C6 (amended): when no valid entry's threshold is less than or equal to
the total weight, rank assignment returns the fixed default label `"D"`
(`RankConst.D_RANK`) — not the lowest-threshold valid label; and on the
example `{A: 50, B: 0, C: -25}` with weight `10` the result is `"B"`,
because `B`'s threshold `0` qualifies. -/
theorem rank_fallback_default :
    (∀ (w : ℚ) (metrics : List ScoreThreshold),
      (∀ p ∈ validLabels metrics, w < p.2) →
      determine_rank w metrics = D_RANK) ∧
    determine_rank 10 [⟨"A", some 50⟩, ⟨"B", some 0⟩, ⟨"C", some (-25)⟩]
      = "B" := by
  constructor
  · intro w metrics h
    unfold determine_rank
    by_cases hm : metrics = []
    · rw [if_pos hm]
    · rw [if_neg hm]
      by_cases hl : validLabels metrics = []
      · rw [if_pos hl]
      · rw [if_neg hl]
        have hnone : ((validLabels metrics).insertionSort rankLE).find?
            (fun lt => lt.2 ≤ w) = none := by
          rw [List.find?_eq_none]
          intro x hxmem
          have hxv : x ∈ validLabels metrics :=
            (List.mem_insertionSort rankLE).mp hxmem
          simpa using not_le.mpr (h x hxv)
        rw [hnone]
  · decide

/-- Witness for C6 (amended) at the concrete configuration `{A: 50}` with
weight `10`. -/
theorem rank_fallback_default_witness :
    determine_rank 10 [⟨"A", some 50⟩] = D_RANK :=
  rank_fallback_default.1 10 [⟨"A", some 50⟩] (by decide)

/-! ## C2 — regression-safe upsert -/

/-- C2: when a row exists whose status is `PROCESSING` or `COMPLETED` and
the incoming upsert carries status `QUEUED`, `create_or_update` performs
only the guard update: the status field — and every other field except the
receive count and the updated-at timestamp — is left unchanged; the receive
count takes the incoming value (falling back to an increment) and the
timestamp is refreshed. -/
theorem upsert_regression_guard :
    ∀ (a : UpsertArgs) (now : Nat) (store : HistoryStore)
      (r : SQSMessageHistory),
      store.find? (fun x => x.sqs_message_id == a.sqs_message_id) = some r →
      (r.status = .processing ∨ r.status = .completed) →
      a.status = .queued →
      create_or_update a now store =
        (guardUpdatedRow a now r,
         updateFirst (fun x => x.sqs_message_id == a.sqs_message_id)
           (fun _ => guardUpdatedRow a now r) store) ∧
      (guardUpdatedRow a now r).status = r.status ∧
      (guardUpdatedRow a now r).job_id = r.job_id ∧
      (guardUpdatedRow a now r).message_type = r.message_type ∧
      (guardUpdatedRow a now r).keyword_ids = r.keyword_ids ∧
      (guardUpdatedRow a now r).user_id = r.user_id ∧
      (guardUpdatedRow a now r).user_full_name = r.user_full_name ∧
      (guardUpdatedRow a now r).retry_count = r.retry_count ∧
      (guardUpdatedRow a now r).error_details = r.error_details ∧
      (guardUpdatedRow a now r).error_code = r.error_code ∧
      (guardUpdatedRow a now r).queued_at = r.queued_at ∧
      (guardUpdatedRow a now r).started_processing_at
        = r.started_processing_at ∧
      (guardUpdatedRow a now r).completed_at = r.completed_at ∧
      (guardUpdatedRow a now r).queue_name = r.queue_name ∧
      (guardUpdatedRow a now r).receipt_handle = r.receipt_handle ∧
      (guardUpdatedRow a now r).message_body = r.message_body ∧
      (guardUpdatedRow a now r).message_attributes = r.message_attributes ∧
      (guardUpdatedRow a now r).created_at = r.created_at ∧
      (guardUpdatedRow a now r).receive_count
        = newReceiveCount a.sqs_receive_count r.receive_count ∧
      (guardUpdatedRow a now r).updated_at = now := by
  intro a now store r hf hst hq
  have heq : create_or_update a now store =
      (guardUpdatedRow a now r,
       updateFirst (fun x => x.sqs_message_id == a.sqs_message_id)
         (fun _ => guardUpdatedRow a now r) store) := by
    unfold create_or_update
    simp only [hf]
    rcases hst with h | h
    · rw [if_pos ⟨h, hq⟩]
    · rw [if_neg (by simp [h]), if_pos ⟨h, hq⟩]
  exact ⟨heq, rfl, rfl, rfl, rfl, rfl, rfl, rfl, rfl, rfl, rfl, rfl, rfl,
    rfl, rfl, rfl, rfl, rfl, rfl, rfl⟩

/-- A `PROCESSING` row used by the C2 witness. -/
def processingRowW : SQSMessageHistory :=
  { sqs_message_id := "m1", job_id := some "j1",
    message_type := some .full_rank, keyword_ids := some [1],
    user_id := some 2, user_full_name := some "U", status := .processing,
    retry_count := 0, error_details := none, error_code := none,
    queued_at := some 1, started_processing_at := some 2,
    completed_at := none, queue_name := some "main",
    receipt_handle := some "rh", receive_count := 1, message_body := none,
    message_attributes := none, created_at := 1, updated_at := 2 }

/-- A `QUEUED` upsert argument bundle used by the C2 witness. -/
def queuedUpsertW : UpsertArgs :=
  { sqs_message_id := "m1", job_id := some "j1",
    message_type := some .full_rank, keyword_ids := some [1],
    user_id := some 2, user_full_name := none, status := .queued,
    retry_count := 0, queue_name := none, receipt_handle := none,
    message_body := none, message_attributes := none, queued_at := none,
    sqs_receive_count := some 2 }

/-- Witness for C2 at a concrete `PROCESSING` row receiving a `QUEUED`
upsert. -/
theorem upsert_regression_guard_witness :
    create_or_update queuedUpsertW 9 [processingRowW] =
      (guardUpdatedRow queuedUpsertW 9 processingRowW,
       updateFirst (fun x => x.sqs_message_id == queuedUpsertW.sqs_message_id)
         (fun _ => guardUpdatedRow queuedUpsertW 9 processingRowW)
         [processingRowW]) ∧
    (guardUpdatedRow queuedUpsertW 9 processingRowW).status
      = processingRowW.status :=
  ⟨(upsert_regression_guard queuedUpsertW 9 [processingRowW] processingRowW
      (by decide) (Or.inl rfl) rfl).1,
   (upsert_regression_guard queuedUpsertW 9 [processingRowW] processingRowW
      (by decide) (Or.inl rfl) rfl).2.1⟩

/-! ## C3 — cancel contract -/

/-- The two cancel methods share one shape: find a row by a query
predicate, refuse unless its status is `QUEUED` or `PROCESSING`, otherwise
write `CANCELLED`.  This lemma characterises that shape. -/
lemma cancel_pattern_spec (p : SQSMessageHistory → Bool) (now : Nat)
    (store : HistoryStore) (c : Option SQSMessageHistory × HistoryStore)
    (hc : c = match store.find? p with
      | none => (none, store)
      | some r =>
        if r.status = .queued ∨ r.status = .processing then
          (some (cancelledRow now r),
           updateFirst p (fun _ => cancelledRow now r) store)
        else (none, store)) :
    (c.1.isSome = true ↔
      ∃ r, store.find? p = some r ∧
        (r.status = .queued ∨ r.status = .processing)) ∧
    (∀ r, store.find? p = some r →
      (r.status = .queued ∨ r.status = .processing) →
      c = (some (cancelledRow now r),
           updateFirst p (fun _ => cancelledRow now r) store)) ∧
    (c.1 = none → c.2 = store) := by
  subst hc
  rcases hf : store.find? p with _ | r <;> dsimp only
  · simp
  · by_cases hs : r.status = .queued ∨ r.status = .processing
    · rw [if_pos hs]
      refine ⟨?_, ?_, ?_⟩
      · simp only [Option.isSome_some, true_iff]
        exact ⟨r, rfl, hs⟩
      · intro r2 hr2 _
        injection hr2 with h
        subst h
        rfl
      · intro hnone
        simp at hnone
    · rw [if_neg hs]
      refine ⟨?_, ?_, ?_⟩
      · refine ⟨fun h => absurd h (by simp), ?_⟩
        rintro ⟨r2, hr2, hs2⟩
        injection hr2 with h
        subst h
        exact absurd hs2 hs
      · intro r2 hr2 hs2
        injection hr2 with h
        subst h
        exact absurd hs2 hs
      · intro _
        rfl

/-- C3: for both lookup modes (by job id and by message id), cancellation
succeeds exactly when a row is found whose status is `QUEUED` or
`PROCESSING`; in that case the row is rewritten with status `CANCELLED`
and a fresh timestamp; in every other case (terminal status or no row) the
result is `None` and the store — in particular the stored status — is left
unchanged. -/
theorem cancel_requires_active_status :
    ∀ (jid mid : String) (now : Nat) (store : HistoryStore),
      ((cancel_by_job_id jid now store).1.isSome = true ↔
        ∃ r, store.find? (fun x => x.job_id == some jid) = some r ∧
          (r.status = .queued ∨ r.status = .processing)) ∧
      (∀ r, store.find? (fun x => x.job_id == some jid) = some r →
        (r.status = .queued ∨ r.status = .processing) →
        cancel_by_job_id jid now store =
          (some { r with status := .cancelled, updated_at := now },
           updateFirst (fun x => x.job_id == some jid)
             (fun _ => { r with status := .cancelled, updated_at := now })
             store)) ∧
      ((cancel_by_job_id jid now store).1 = none →
        (cancel_by_job_id jid now store).2 = store) ∧
      ((cancel_by_sqs_message_id mid now store).1.isSome = true ↔
        ∃ r, store.find? (fun x => x.sqs_message_id == mid) = some r ∧
          (r.status = .queued ∨ r.status = .processing)) ∧
      (∀ r, store.find? (fun x => x.sqs_message_id == mid) = some r →
        (r.status = .queued ∨ r.status = .processing) →
        cancel_by_sqs_message_id mid now store =
          (some { r with status := .cancelled, updated_at := now },
           updateFirst (fun x => x.sqs_message_id == mid)
             (fun _ => { r with status := .cancelled, updated_at := now })
             store)) ∧
      ((cancel_by_sqs_message_id mid now store).1 = none →
        (cancel_by_sqs_message_id mid now store).2 = store) := by
  intro jid mid now store
  have hj := cancel_pattern_spec (fun x => x.job_id == some jid) now store
    (cancel_by_job_id jid now store) rfl
  have hm := cancel_pattern_spec (fun x => x.sqs_message_id == mid) now store
    (cancel_by_sqs_message_id mid now store) rfl
  exact ⟨hj.1, hj.2.1, hj.2.2, hm.1, hm.2.1, hm.2.2⟩

/-- A freshly-queued history row for message `mid` / job `jid`, as the
producer's `_log_sent_message_to_db` would create it. -/
def queuedRow (mid jid : String) : SQSMessageHistory :=
  { sqs_message_id := mid, job_id := some jid,
    message_type := some .full_rank, keyword_ids := some [1, 2, 3, 4, 5],
    user_id := some 7, user_full_name := none, status := .queued,
    retry_count := 0, error_details := none, error_code := none,
    queued_at := some 1, started_processing_at := none, completed_at := none,
    queue_name := some "main", receipt_handle := none, receive_count := 0,
    message_body := none, message_attributes := none, created_at := 1,
    updated_at := 1 }

/-- Witness for C3: cancelling a concrete `QUEUED` job succeeds and writes
`CANCELLED`; cancelling a `COMPLETED` one returns `None` and leaves the
store unchanged. -/
theorem cancel_requires_active_status_witness :
    cancel_by_job_id "j1" 5 [queuedRow "m1" "j1"] =
      (some { queuedRow "m1" "j1" with status := .cancelled, updated_at := 5 },
       updateFirst (fun x => x.job_id == some "j1")
         (fun _ => { queuedRow "m1" "j1" with
           status := .cancelled, updated_at := 5 })
         [queuedRow "m1" "j1"]) ∧
    (cancel_by_sqs_message_id "m1"
        7 [{ queuedRow "m1" "j1" with status := .completed }]).2 =
      [{ queuedRow "m1" "j1" with status := .completed }] :=
  ⟨(cancel_requires_active_status "j1" "m1" 5 [queuedRow "m1" "j1"]).2.1
      (queuedRow "m1" "j1") (by decide) (Or.inl rfl),
   (cancel_requires_active_status "j1" "m1" 7
      [{ queuedRow "m1" "j1" with status := .completed }]).2.2.2.2.2
      (by decide)⟩

/-! ## C1 — max-retries enforcement -/

/-- Updating the first match in place keeps it the first match, provided the
updated element still satisfies the query. -/
lemma find?_updateFirst (p : α → Bool) (f : α → α) :
    ∀ (l : List α) (a : α), l.find? p = some a → p (f a) = true →
      (updateFirst p f l).find? p = some (f a) := by
  intro l
  induction l with
  | nil => intro a ha _; simp at ha
  | cons x xs ih =>
    intro a ha hpf
    by_cases hx : p x = true
    · rw [List.find?_cons_of_pos _ hx] at ha
      injection ha with h
      subst h
      simp only [updateFirst, if_pos hx]
      rw [List.find?_cons_of_pos _ hpf]
    · rw [List.find?_cons_of_neg _ hx] at ha
      simp only [updateFirst, if_neg hx]
      rw [List.find?_cons_of_neg _ hx]
      exact ih a ha hpf

lemma getPhase_setPhase (ph : KwPhase) (s : KStatus) (k : Keyword) :
    getPhase ph (setPhase ph s k) = s := by
  cases ph <;> rfl

lemma setPhase_id (ph : KwPhase) (s : KStatus) (k : Keyword) :
    (setPhase ph s k).id = k.id := by
  cases ph <;> rfl

/-- The full queue-job router abstracted to its observable effect, used for
inputs on which the router is never consulted. -/
def trivialRouter : Router := fun _ kws store => (⟨false, false, ""⟩, kws, store)

/-- `update_status` with target status `FAILED` on an existing row: the row
is rewritten with the failure fields and the refreshed timestamps. -/
lemma update_status_failed_spec (mid : String) (det code : Option String)
    (now : Nat) (store : HistoryStore) (r : SQSMessageHistory)
    (hr : store.find? (fun x => x.sqs_message_id == mid) = some r) :
    update_status mid .failed det code now store =
      (some { r with
          status := .failed
          updated_at := now
          completed_at := some now
          error_details := det
          error_code := code },
       updateFirst (fun x => x.sqs_message_id == mid)
         (fun _ => { r with
           status := .failed
           updated_at := now
           completed_at := some now
           error_details := det
           error_code := code }) store) := by
  unfold update_status
  simp only [hr]
  have h1 : MessageStatus.failed ≠ MessageStatus.processing := by decide
  simp [if_neg h1]

/-- C1 (amended): for every received message whose queue-reported
approximate receive count exceeds `MAX_RETRIES = 3`, and any router
whatsoever, the consumer never invokes the router, deletes the message,
rewrites the Message-History row found under this message id to `FAILED`
with the max-retries reason and the `MAX_RETRIES_EXCEEDED` code (only
`status`, `updated_at`, `completed_at` and the error fields move), and
marks the referenced keywords `FAILED` in the phase column matching the job
type when that type is `fetch`, `partial_rank` or `full_rank`; for any
other job type (`fetch_and_rank` included) the keyword rows are left
entirely unchanged. -/
theorem consumer_max_retries :
    ∀ (msg : SQSMessage) (router : Router) (users : List (Nat × String))
      (now : Nat) (store : HistoryStore) (kws : List Keyword),
      MAX_RETRIES < msg.approximateReceiveCount →
      (processMessage msg router users now store kws).pipelineInvoked
          = false ∧
      (processMessage msg router users now store kws).deletedFromQueue
          = true ∧
      (∀ r, store.find? (fun x => x.sqs_message_id == msg.messageId)
          = some r →
        (processMessage msg router users now store kws).history.find?
            (fun x => x.sqs_message_id == msg.messageId) =
          some { r with
            status := .failed
            updated_at := now
            completed_at := some now
            error_details := some ("Max retries exceeded (" ++
              toString msg.approximateReceiveCount ++ "/" ++
              toString MAX_RETRIES ++ ")")
            error_code := some "MAX_RETRIES_EXCEEDED" }) ∧
      (∀ ph, statusFieldFor msg.body.message_type = some ph →
        ∀ k ∈ (processMessage msg router users now store kws).keywords,
          k.id ∈ msg.body.keyword_ids → getPhase ph k = .failed) ∧
      (statusFieldFor msg.body.message_type = none →
        (processMessage msg router users now store kws).keywords = kws) := by
  intro msg router users now store kws h
  have hpm : processMessage msg router users now store kws =
      { history := update_message_history msg.messageId .failed
          (some ("Max retries exceeded (" ++
            toString msg.approximateReceiveCount ++ "/" ++
            toString MAX_RETRIES ++ ")"))
          (some "MAX_RETRIES_EXCEEDED") none none none none none
          users now store
        keywords := failKeywords msg.body.keyword_ids msg.body.message_type
          kws
        deletedFromQueue := true
        pipelineInvoked := false
        extenderStarted := false } := by
    unfold processMessage
    rw [if_pos h]
  rw [hpm]
  refine ⟨rfl, rfl, ?_, ?_, ?_⟩
  · intro r hr
    have hp : (r.sqs_message_id == msg.messageId) = true := by
      have h2 := List.find?_some hr
      simpa using h2
    have hus := update_status_failed_spec msg.messageId
      (some ("Max retries exceeded (" ++
        toString msg.approximateReceiveCount ++ "/" ++
        toString MAX_RETRIES ++ ")"))
      (some "MAX_RETRIES_EXCEEDED") now store r hr
    simp only [update_message_history, hus]
    exact find?_updateFirst _ _ store r hr hp
  · intro ph hph k hk hid
    unfold failKeywords at hk
    by_cases hids : msg.body.keyword_ids = []
    · rw [hids] at hid
      simp at hid
    · rw [if_neg hids, hph] at hk
      unfold set_keywords_status at hk
      obtain ⟨k0, hk0, rfl⟩ := List.mem_map.mp hk
      by_cases hc : msg.body.keyword_ids.contains k0.id = true
      · rw [if_pos hc]
        exact getPhase_setPhase ph .failed k0
      · rw [if_neg hc] at hid ⊢
        exact absurd (List.elem_iff.mpr hid) hc
  · intro hnone
    unfold failKeywords
    by_cases hids : msg.body.keyword_ids = []
    · rw [if_pos hids]
    · rw [if_neg hids, hnone]

/-- A message over the retry ceiling, used by the C1 witness. -/
def maxRetriesMsg : SQSMessage :=
  { messageId := "m3", receiptHandle := "rh3", approximateReceiveCount := 5,
    body := { job_id := "j3", message_type := "fetch", keyword_ids := [1],
              user_id := none, retry_count := 0 } }

/-- Witness for C1 at a concrete over-the-ceiling message. -/
theorem consumer_max_retries_witness :
    (processMessage maxRetriesMsg trivialRouter [] 4 [] []).pipelineInvoked
        = false ∧
    (processMessage maxRetriesMsg trivialRouter [] 4 [] []).deletedFromQueue
        = true :=
  ⟨(consumer_max_retries maxRetriesMsg trivialRouter [] 4 [] []
      (by decide)).1,
   (consumer_max_retries maxRetriesMsg trivialRouter [] 4 [] []
      (by decide)).2.1⟩

/-- An over-the-ceiling message of the inbound type `fetch_and_rank` (listed
in `SQSMessageType`, `src/schemas/sqs_message.py`). -/
def fetchAndRankMsg : SQSMessage :=
  { messageId := "m2", receiptHandle := "rh2", approximateReceiveCount := 4,
    body := { job_id := "j2", message_type := "fetch_and_rank",
              keyword_ids := [1], user_id := some 7, retry_count := 0 } }

/-- A keyword row with every phase still `pending`. -/
def pendingKw : Keyword := ⟨1, .pending, .pending, .pending⟩

/-- C1 (counterexample): a `fetch_and_rank` message over the retry ceiling
is deleted and its history row is failed, but `_fail_keywords` recognises
only `fetch`, `partial_rank` and `full_rank`, so the referenced keyword is
left entirely untouched — no phase of it is marked `FAILED`, contradicting
"marks all referenced target items FAILED". -/
theorem consumer_max_retries_counterexample :
    MAX_RETRIES < fetchAndRankMsg.approximateReceiveCount ∧
    (processMessage fetchAndRankMsg trivialRouter [] 9 [queuedRow "m2" "j2"]
        [pendingKw]).deletedFromQueue = true ∧
    (processMessage fetchAndRankMsg trivialRouter [] 9 [queuedRow "m2" "j2"]
        [pendingKw]).keywords = [pendingKw] ∧
    pendingKw.fetch_status ≠ KStatus.failed ∧
    pendingKw.partial_rank_status ≠ KStatus.failed ∧
    pendingKw.rank_status ≠ KStatus.failed := by
  refine ⟨by decide, by decide, by decide, by decide, by decide, by decide⟩

/-! ## C4 — cancellation mid-processing -/

/-- The message of the scenario "job cancelled while keyword 2 of 5 is
mid-processing". -/
def cancelScenarioMsg : SQSMessage :=
  { messageId := "m1", receiptHandle := "rh", approximateReceiveCount := 1,
    body := { job_id := "j1", message_type := "full_rank",
              keyword_ids := [1, 2, 3, 4, 5], user_id := some 7,
              retry_count := 0 } }

/-- The five keywords of the scenario before the job runs: fetched, not yet
ranked. -/
def cancelScenarioKeywords : List Keyword :=
  [⟨1, .success, .pending, .pending⟩, ⟨2, .success, .pending, .pending⟩,
   ⟨3, .success, .pending, .pending⟩, ⟨4, .success, .pending, .pending⟩,
   ⟨5, .success, .pending, .pending⟩]

/-- The router behaviour observed in the scenario: keyword 1 was ranked
successfully; the cancellation is detected while keyword 2 is
mid-processing, so `run_rank` resets the current keyword 2 and the
remaining keywords 3–5 to `PENDING` (`src/services/keyword.py`,
lines 482–496); the concurrent cancel endpoint has meanwhile written
`CANCELLED` to the history row (`cancel_by_job_id`); the rank processor
reports `rankCancelledResult` (`worker/processor.py`, lines 153–165). -/
def cancelScenarioRouter : Router := fun _ kws store =>
  (rankCancelledResult,
   runRankCancelReset [2, 3, 4, 5]
     (kws.map (fun k =>
       if k.id == 1 then { k with rank_status := .success } else k)),
   (cancel_by_job_id "j1" 5 store).2)

/-- C4 (code evaluated at the failing input): when the job is cancelled
while keyword 2 of 5 is mid-processing, the consumer routes the
processor's `should_delete = True` cancellation result through the generic
rejection branch: the message is deleted, but the history row ends
`FAILED` with `JOB_REJECTED` — never `DELETED` — and `_fail_keywords`
overwrites every keyword (including the just-reset ones) with
`rank_status = FAILED` instead of leaving them in the resumable `PENDING`
state the pipeline had restored. -/
theorem cancellation_midjob_eval :
    (processMessage cancelScenarioMsg cancelScenarioRouter [(7, "U")] 6
        [queuedRow "m1" "j1"] cancelScenarioKeywords).deletedFromQueue
        = true ∧
    ((processMessage cancelScenarioMsg cancelScenarioRouter [(7, "U")] 6
        [queuedRow "m1" "j1"] cancelScenarioKeywords).history.find?
        (fun r => r.sqs_message_id == "m1")).map (fun r => r.status)
        = some MessageStatus.failed ∧
    ((processMessage cancelScenarioMsg cancelScenarioRouter [(7, "U")] 6
        [queuedRow "m1" "j1"] cancelScenarioKeywords).history.find?
        (fun r => r.sqs_message_id == "m1")).map (fun r => r.error_code)
        = some (some "JOB_REJECTED") ∧
    ((processMessage cancelScenarioMsg cancelScenarioRouter [(7, "U")] 6
        [queuedRow "m1" "j1"] cancelScenarioKeywords).keywords.all
        (fun k => k.rank_status == KStatus.failed)) = true ∧
    ((processMessage cancelScenarioMsg cancelScenarioRouter [(7, "U")] 6
        [queuedRow "m1" "j1"] cancelScenarioKeywords).history.all
        (fun r => !(r.status == MessageStatus.deleted))) = true := by
  refine ⟨by decide, by decide, by decide, by decide, by decide⟩
